import Mathlib

/-!
Shallow embedding of the brand front-end glue code (src/index.js and
src/src/worker.js) and proofs about its observable behaviour.

Conventions of the embedding:
- JS numbers carrying coordinates are modelled as rationals.
- The DOM and map-widget effects that the code performs are modelled as an
  explicit state record; each JS function becomes a state-transforming
  Lean function.
- The external WASM entry points (update_coords, handle_message) are
  parameters of the model: update_coords is a function returning
  Option Unit, where none models a thrown exception, and handle_message
  is an arbitrary function from payloads to results.
- Event handlers run to completion in arrival order (the single-threaded
  event-loop semantics of the platform).
-/

namespace Brand

/-! ### JS Number.prototype.toFixed(8)

The click handler in index.js forwards lat.toFixed(8) and lng.toFixed(8).
Per the ECMAScript ToFixed algorithm with f = 8: for x < 0 the result is
the sign followed by ToFixed of -x; otherwise x is rendered with exactly 8
fraction digits, using the integer n closest to x * 10^8, ties resolved
upward (round half up). -/

/-- Decimal digits of n, most significant first; fuel-based structural
recursion so the kernel can evaluate it on literals. -/
def natToDigits : ℕ → ℕ → List Char
  | 0, _ => []
  | f + 1, n =>
    if n < 10 then [Nat.digitChar n]
    else natToDigits f (n / 10) ++ [Nat.digitChar (n % 10)]

/-- Decimal rendering of a natural number (30 digits of fuel suffice for
every value the model produces). -/
def natRepr (n : ℕ) : String := String.mk (natToDigits 30 n)

/-- Left-pad a digit string with zeros to width 8 (fraction part of
toFixed(8)). -/
def zeroPad8 (s : String) : String :=
  String.mk (List.replicate (8 - s.length) '0') ++ s

/-- toFixed(8) on a nonnegative rational: n = floor(x * 10^8 + 1/2) is the
closest integer to x * 10^8 with ties upward; render n split around the
decimal point. The floor is computed on the numerator and denominator
directly: floor(x * 10^8 + 1/2) = fdiv (2 * num * 10^8 + den) (2 * den). -/
def jsToFixed8Nonneg (x : ℚ) : String :=
  let n : ℕ := ((2 * x.num * 100000000 + (x.den : ℤ)).fdiv (2 * (x.den : ℤ))).toNat
  natRepr (n / 100000000) ++ "." ++ zeroPad8 (natRepr (n % 100000000))

/-- JS x.toFixed(8): sign handling plus the nonnegative case. -/
def jsToFixed8 (x : ℚ) : String :=
  if x.num < 0 then "-" ++ jsToFixed8Nonneg (-x) else jsToFixed8Nonneg x

/-! ### Map Picker UI state (src/index.js)

The observable state touched by index.js: the hidden CSS class on the map
container, the marker variable, the marker layers actually on the map, the
click handlers registered on the map, and a trace of the update_coords
calls made across the WASM boundary. A ghost counter records how many
times classList.toggle ran. Markers are identified by a fresh id together
with their coordinates. Handlers are identified by the index the closure
captured. -/

/-- A Leaflet marker object: identity plus the coordinate it was placed
at. -/
abbrev Marker := ℕ × ℚ × ℚ

/-- The mutable state of the Map Picker UI. -/
structure UIState where
  /-- Whether the map container currently has the hidden class. -/
  mapHidden : Bool
  /-- The global marker variable (may reference a marker that was already
  removed from the map; the source never clears the variable). -/
  markerVar : Option Marker
  /-- Marker layers currently on the map. -/
  markerLayers : List Marker
  /-- Fresh-id source for newly created markers. -/
  nextId : ℕ
  /-- Click handlers currently registered on the map, in registration
  order, each identified by the index captured by the closure. -/
  handlers : List ℤ
  /-- Trace of update_coords calls: index and the two formatted strings
  passed across the WASM boundary. -/
  calls : List (ℤ × String × String)
  /-- Ghost counter: number of classList.toggle invocations on the map
  container. -/
  toggles : ℕ
deriving DecidableEq

/-- State after startup: map container hidden, no marker, no handler. -/
def initState : UIState :=
  { mapHidden := true, markerVar := none, markerLayers := [], nextId := 0,
    handlers := [], calls := [], toggles := 0 }

/-- prompt_coords(index): toggles the hidden class on the map container
and registers a click handler capturing index. The setTimeout that calls
map.invalidateSize only recomputes widget layout and touches none of the
modelled state. -/
def prompt_coords (index : ℤ) (s : UIState) : UIState :=
  { s with mapHidden := !s.mapHidden, toggles := s.toggles + 1,
           handlers := s.handlers ++ [index] }

/-- The statement: if (marker) { map.removeLayer(marker); } — removes the
layer referenced by the marker variable from the map, leaving the variable
itself untouched. -/
def removeMarkerLayer (s : UIState) : UIState :=
  match s.markerVar with
  | some m => { s with markerLayers := s.markerLayers.erase m }
  | none => s

@[simp] theorem removeMarkerLayer_mapHidden (s : UIState) :
    (removeMarkerLayer s).mapHidden = s.mapHidden := by
  unfold removeMarkerLayer; rcases hv : s.markerVar with _ | m <;> simp [hv]

@[simp] theorem removeMarkerLayer_markerVar (s : UIState) :
    (removeMarkerLayer s).markerVar = s.markerVar := by
  unfold removeMarkerLayer; rcases hv : s.markerVar with _ | m <;> simp [hv]

@[simp] theorem removeMarkerLayer_nextId (s : UIState) :
    (removeMarkerLayer s).nextId = s.nextId := by
  unfold removeMarkerLayer; rcases hv : s.markerVar with _ | m <;> simp [hv]

@[simp] theorem removeMarkerLayer_handlers (s : UIState) :
    (removeMarkerLayer s).handlers = s.handlers := by
  unfold removeMarkerLayer; rcases hv : s.markerVar with _ | m <;> simp [hv]

@[simp] theorem removeMarkerLayer_calls (s : UIState) :
    (removeMarkerLayer s).calls = s.calls := by
  unfold removeMarkerLayer; rcases hv : s.markerVar with _ | m <;> simp [hv]

@[simp] theorem removeMarkerLayer_toggles (s : UIState) :
    (removeMarkerLayer s).toggles = s.toggles := by
  unfold removeMarkerLayer; rcases hv : s.markerVar with _ | m <;> simp [hv]

/-- The update_exposure closure from prompt_coords, fired on a click at
(lat, lng). upd is the external window.wasmBindings.update_coords entry
point; none models a thrown exception. Steps, in source order: call
update_coords(index, lat.toFixed(8), lng.toFixed(8)); if it throws, the
rest of the handler does not run (second component true = threw).
Otherwise remove the marker layer if the marker variable is set, toggle
the hidden class, and deregister this handler. The call trace records the
two formatted strings passed to update_coords in either case. -/
def update_exposure (upd : ℤ → String → String → Option Unit) (index : ℤ)
    (lat lng : ℚ) (s : UIState) : UIState × Bool :=
  let latS := jsToFixed8 lat
  let lngS := jsToFixed8 lng
  let s1 : UIState := { s with calls := s.calls ++ [(index, latS, lngS)] }
  match upd index latS lngS with
  | none => (s1, true)
  | some _ =>
    let s2 := removeMarkerLayer s1
    ({ s2 with mapHidden := !s2.mapHidden, toggles := s2.toggles + 1,
               handlers := s2.handlers.erase index }, false)

/-- Fire the given list of handlers in order on a click at (lat, lng);
an exception thrown by a handler propagates and aborts the dispatch. -/
def clickGo (upd : ℤ → String → String → Option Unit) (lat lng : ℚ) :
    List ℤ → UIState → UIState
  | [], s => s
  | i :: rest, s =>
    let r := update_exposure upd i lat lng s
    if r.2 then r.1 else clickGo upd lat lng rest r.1

/-- A map click at (lat, lng): fires the handlers registered at click
time. -/
def click (upd : ℤ → String → String → Option Unit) (lat lng : ℚ)
    (s : UIState) : UIState :=
  clickGo upd lat lng s.handlers s

/-- An update_coords entry point that never throws. -/
def updOk : ℤ → String → String → Option Unit := fun _ _ _ => some ()

/-- A map click whose update_coords call succeeds. -/
def clickOk (lat lng : ℚ) (s : UIState) : UIState := click updOk lat lng s

/-- set_marker(lat, lng): remove the layer referenced by the marker
variable if set, then create a fresh marker at (lat, lng), add it to the
map and store it in the marker variable. -/
def set_marker (lat lng : ℚ) (s : UIState) : UIState :=
  let layers := match s.markerVar with
    | some m => s.markerLayers.erase m
    | none => s.markerLayers
  let m : Marker := (s.nextId, lat, lng)
  { s with markerLayers := layers ++ [m], markerVar := some m,
           nextId := s.nextId + 1 }

/-- A sequence of set_marker calls applied in order. -/
def applyMarkers (cs : List (ℚ × ℚ)) (s : UIState) : UIState :=
  cs.foldl (fun t c => set_marker c.1 c.2 t) s

/-- Consistency of the marker state: the map carries no marker layer, or
exactly the one referenced by the marker variable. Every state the program
reaches satisfies this. -/
def markerConsistent (s : UIState) : Bool :=
  match s.markerLayers, s.markerVar with
  | [], _ => true
  | [m], some m2 => m == m2
  | _, _ => false

/-- get_raw_handles(): returns the process-wide filehandles value. -/
def get_raw_handles {V : Type} (filehandles : V) : V := filehandles

/-- set_raw_handles(value): replaces the process-wide filehandles value,
with no validation of the shape of value. -/
def set_raw_handles {V : Type} (value : V) (_filehandles : V) : V := value

/-! ### Theorems about the Map Picker UI -/

/-- One set_marker call from a consistent marker state leaves exactly the
freshly created marker on the map and preserves consistency. -/
theorem set_marker_step (lat lng : ℚ) (s : UIState)
    (h : markerConsistent s = true) :
    (set_marker lat lng s).markerLayers = [(s.nextId, lat, lng)] ∧
    markerConsistent (set_marker lat lng s) = true := by
  unfold markerConsistent at h
  rcases hv : s.markerVar with _ | mv <;>
    rcases hL : s.markerLayers with _ | ⟨m0, _ | ⟨m1, rest⟩⟩ <;>
      simp [hv, hL] at h <;>
        simp [set_marker, markerConsistent, hv, hL]
  subst h
  simp [markerConsistent]

/-- C2: from any consistent marker state, after each call in a sequence of
N at least 1 set_marker calls exactly one marker is present on the map:
set_marker removes the existing marker layer if one exists and then places
the new one. -/
theorem set_marker_always_single_marker (s : UIState)
    (h : markerConsistent s = true) (cs : List (ℚ × ℚ)) :
    ∀ n < cs.length,
      ((applyMarkers (cs.take (n + 1)) s).markerLayers).length = 1 := by
  induction cs generalizing s with
  | nil => intro n hn; simp at hn
  | cons c cs ih =>
    intro n hn
    have hstep := set_marker_step c.1 c.2 s h
    cases n with
    | zero =>
      simp [applyMarkers, hstep.1]
    | succ m =>
      have : applyMarkers ((c :: cs).take (m + 1 + 1)) s
          = applyMarkers (cs.take (m + 1)) (set_marker c.1 c.2 s) := by
        simp [applyMarkers]
      rw [this]
      exact ih (set_marker c.1 c.2 s) hstep.2 m (by simpa using hn)

theorem set_marker_always_single_marker_witness :
    markerConsistent initState = true ∧
    0 < ([(mkRat 1 1, mkRat 2 1)] : List (ℚ × ℚ)).length ∧
    ((applyMarkers (([(mkRat 1 1, mkRat 2 1)] : List (ℚ × ℚ)).take (0 + 1))
        initState).markerLayers).length = 1 :=
  ⟨by decide, by decide,
    set_marker_always_single_marker initState (by decide)
      [(mkRat 1 1, mkRat 2 1)] 0 (by decide)⟩

/-- C1: the values the click handler passes to update_coords are the
latitude and longitude of the click, each formatted by toFixed(8), which
rounds to exactly 8 fraction digits; on the section-8 example inputs the
forwarded strings are "48.85661416" and "2.35222123" (rounding, not
truncation, of 48.856614159). -/
theorem update_coords_receives_toFixed8 (upd : ℤ → String → String → Option Unit)
    (index : ℤ) (lat lng : ℚ) (s : UIState) :
    (update_exposure upd index lat lng s).1.calls
      = s.calls ++ [(index, jsToFixed8 lat, jsToFixed8 lng)] ∧
    jsToFixed8 (mkRat 48856614159 1000000000) = "48.85661416" ∧
    jsToFixed8 (mkRat 2352221234 1000000000) = "2.35222123" := by
  refine ⟨?_, by decide, by decide⟩
  unfold update_exposure
  rcases hu : upd index (jsToFixed8 lat) (jsToFixed8 lng) with _ | u <;> simp [hu]

/-- C3: from a quiescent state (no handler registered), one prompt_coords
call followed by one map click leaves the visibility of the map container
exactly as it was before prompt_coords: the two classList toggles compose
to the identity. -/
theorem prompt_click_visibility_roundtrip (s : UIState) (index : ℤ)
    (lat lng : ℚ) (h : s.handlers = []) :
    (clickOk lat lng (prompt_coords index s)).mapHidden = s.mapHidden := by
  have hh : (prompt_coords index s).handlers = [index] := by
    simp [prompt_coords, h]
  unfold clickOk click
  rw [hh]
  simp [clickGo, update_exposure, updOk, prompt_coords]

theorem prompt_click_visibility_roundtrip_witness :
    initState.handlers = [] ∧
    (clickOk (mkRat 1 2) (mkRat 1 3) (prompt_coords 0 initState)).mapHidden
      = initState.mapHidden :=
  ⟨rfl, prompt_click_visibility_roundtrip initState 0 (mkRat 1 2) (mkRat 1 3) rfl⟩

/-- C4: after the click handler installed by a single prompt_coords call
has fired once, it has deregistered itself, and any further click (with
any update_coords behaviour and any coordinates) leaves the state
completely unchanged until prompt_coords is called again. -/
theorem click_handler_is_one_shot (s : UIState) (index : ℤ) (lat lng : ℚ)
    (h : s.handlers = []) :
    (clickOk lat lng (prompt_coords index s)).handlers = [] ∧
    ∀ (upd : ℤ → String → String → Option Unit) (lat2 lng2 : ℚ),
      click upd lat2 lng2 (clickOk lat lng (prompt_coords index s))
        = clickOk lat lng (prompt_coords index s) := by
  have h1 : (clickOk lat lng (prompt_coords index s)).handlers = [] := by
    unfold clickOk click
    have hh : (prompt_coords index s).handlers = [index] := by
      simp [prompt_coords, h]
    rw [hh]
    simp [clickGo, update_exposure, updOk, prompt_coords, h]
  refine ⟨h1, ?_⟩
  intro upd lat2 lng2
  unfold click
  rw [h1]
  rfl

theorem click_handler_is_one_shot_witness :
    initState.handlers = [] ∧
    (clickOk (mkRat 1 1) (mkRat 2 1) (prompt_coords 5 initState)).handlers = [] ∧
    click updOk (mkRat 3 1) (mkRat 4 1)
        (clickOk (mkRat 1 1) (mkRat 2 1) (prompt_coords 5 initState))
      = clickOk (mkRat 1 1) (mkRat 2 1) (prompt_coords 5 initState) :=
  ⟨rfl, (click_handler_is_one_shot initState 5 (mkRat 1 1) (mkRat 2 1) rfl).1,
    (click_handler_is_one_shot initState 5 (mkRat 1 1) (mkRat 2 1) rfl).2
      updOk (mkRat 3 1) (mkRat 4 1)⟩

/-- C5: calling prompt_coords a second time before the first click leaves
both handlers registered (registration is additive), and a single
subsequent click runs both handlers: update_coords is called twice (once
per captured index, in registration order) and the visibility class is
toggled twice during the click, after which both handlers are gone. -/
theorem second_prompt_is_additive (s : UIState) (i1 i2 : ℤ) (lat lng : ℚ)
    (h : s.handlers = []) :
    (prompt_coords i2 (prompt_coords i1 s)).handlers = [i1, i2] ∧
    (clickOk lat lng (prompt_coords i2 (prompt_coords i1 s))).calls
      = (prompt_coords i2 (prompt_coords i1 s)).calls
          ++ [(i1, jsToFixed8 lat, jsToFixed8 lng),
              (i2, jsToFixed8 lat, jsToFixed8 lng)] ∧
    (clickOk lat lng (prompt_coords i2 (prompt_coords i1 s))).toggles
      = (prompt_coords i2 (prompt_coords i1 s)).toggles + 2 ∧
    (clickOk lat lng (prompt_coords i2 (prompt_coords i1 s))).handlers = [] := by
  have hh : (prompt_coords i2 (prompt_coords i1 s)).handlers = [i1, i2] := by
    simp [prompt_coords, h]
  refine ⟨hh, ?_, ?_, ?_⟩ <;>
    · unfold clickOk click
      rw [hh]
      simp [clickGo, update_exposure, updOk, prompt_coords, h]

theorem second_prompt_is_additive_witness :
    initState.handlers = [] ∧
    (prompt_coords 2 (prompt_coords 1 initState)).handlers = [1, 2] ∧
    (clickOk (mkRat 1 2) (mkRat 1 3)
        (prompt_coords 2 (prompt_coords 1 initState))).calls
      = (prompt_coords 2 (prompt_coords 1 initState)).calls
          ++ [(1, jsToFixed8 (mkRat 1 2), jsToFixed8 (mkRat 1 3)),
              (2, jsToFixed8 (mkRat 1 2), jsToFixed8 (mkRat 1 3))] :=
  ⟨rfl, (second_prompt_is_additive initState 1 2 (mkRat 1 2) (mkRat 1 3) rfl).1,
    (second_prompt_is_additive initState 1 2 (mkRat 1 2) (mkRat 1 3) rfl).2.1⟩

/-- C9: if the update_coords call made by the click handler throws, none
of the subsequent steps of the handler runs: the marker layer is not
removed, the marker variable is untouched, the visibility class is not
toggled back, and the click handler remains registered. -/
theorem failing_update_coords_preserves_state (s : UIState) (index : ℤ)
    (lat lng : ℚ) (upd : ℤ → String → String → Option Unit)
    (h1 : s.handlers = [index])
    (h2 : upd index (jsToFixed8 lat) (jsToFixed8 lng) = none) :
    (click upd lat lng s).markerLayers = s.markerLayers ∧
    (click upd lat lng s).markerVar = s.markerVar ∧
    (click upd lat lng s).mapHidden = s.mapHidden ∧
    (click upd lat lng s).toggles = s.toggles ∧
    (click upd lat lng s).handlers = s.handlers := by
  unfold click
  rw [h1]
  simp [clickGo, update_exposure, h2, h1]

theorem failing_update_coords_preserves_state_witness :
    ({ initState with handlers := [7] } : UIState).handlers = [7] ∧
    (fun (_ : ℤ) (_ : String) (_ : String) => (none : Option Unit)) 7
        (jsToFixed8 (mkRat 1 1)) (jsToFixed8 (mkRat 2 1)) = none ∧
    (click (fun _ _ _ => none) (mkRat 1 1) (mkRat 2 1)
        { initState with handlers := [7] }).mapHidden
      = ({ initState with handlers := [7] } : UIState).mapHidden :=
  ⟨rfl, rfl,
    (failing_update_coords_preserves_state { initState with handlers := [7] }
      7 (mkRat 1 1) (mkRat 2 1) (fun _ _ _ => none) rfl rfl).2.2.1⟩

/-- C6: reading the raw handle mapping immediately after writing value v
returns v, for a value of any type whatsoever (no validation of the shape
of v). -/
theorem raw_handles_read_after_write {V : Type} (v old : V) :
    get_raw_handles (set_raw_handles v old) = v := rfl

/-! ### Worker Bridge variants

Three onmessage handlers appear in the sources. The variant embedded at
the end of index.js awaits init (one WASM instantiation) on every
message, then posts back the result of handle_message(e.data). The first
variant in worker.js awaits init and handle_message(e.data) on every
message and posts back the literal string "All done", never changing the
handler. The second variant in worker.js awaits init and
handle_message(e.data) on the first message, posts nothing, and rebinds
self.onmessage to wasm.handle_message, so every later message is passed
(as the raw event, not its data field) to handle_message directly, with
no instantiation and no posting. P is the payload type, R the result type
of handle_message; messages are processed to completion in arrival
order. -/

/-- State of the worker variant embedded in index.js. -/
structure WorkerEState (P R : Type) where
  /-- Number of WASM instantiations (awaited init calls) performed. -/
  initCount : ℕ
  /-- Arguments handle_message has received, in order. -/
  hmCalls : List P
  /-- Messages posted back to the parent context, in order. -/
  outbox : List R
deriving DecidableEq

/-- Worker state before any message arrives. -/
def workerE_init {P R : Type} : WorkerEState P R := ⟨0, [], []⟩

/-- The onmessage handler embedded in index.js, receiving one message
with payload p: await init, then post handle_message(p). -/
def workerE_onmessage {P R : Type} (hm : P → R) (s : WorkerEState P R)
    (p : P) : WorkerEState P R :=
  { initCount := s.initCount + 1, hmCalls := s.hmCalls ++ [p],
    outbox := s.outbox ++ [hm p] }

/-- Deliver a sequence of messages to the embedded worker variant. -/
def workerE_run {P R : Type} (hm : P → R) (msgs : List P)
    (s : WorkerEState P R) : WorkerEState P R :=
  msgs.foldl (workerE_onmessage hm) s

/-- State of the first worker.js variant (posts the literal "All done"). -/
structure WorkerAState (P : Type) where
  /-- Whether self.onmessage was rebound away from the wrapper (the first
  variant never rebinds). -/
  handlerDirect : Bool
  /-- Number of WASM instantiations performed. -/
  initCount : ℕ
  /-- Arguments handle_message has received, in order. -/
  hmCalls : List P
  /-- Messages posted back to the parent context, in order. -/
  outbox : List String
deriving DecidableEq

/-- Worker state before any message arrives. -/
def workerA_init {P : Type} : WorkerAState P := ⟨false, 0, [], []⟩

/-- The onmessage handler installed by init_wasm_in_worker in the first
worker.js variant: await init, await handle_message(e.data) discarding
its result, then post the literal "All done". -/
def workerA_onmessage {P : Type} (s : WorkerAState P) (p : P) :
    WorkerAState P :=
  { s with initCount := s.initCount + 1, hmCalls := s.hmCalls ++ [p],
           outbox := s.outbox ++ ["All done"] }

/-- Deliver a sequence of messages to the first worker.js variant. -/
def workerA_run {P : Type} (msgs : List P) (s : WorkerAState P) :
    WorkerAState P :=
  msgs.foldl workerA_onmessage s

/-- A message event as delivered to self.onmessage: the payload plus the
rest of the event object (modelled by its origin field). Rebinding
self.onmessage to wasm.handle_message hands the whole event, not the
payload, to handle_message. -/
structure MsgEvent (P : Type) where
  /-- The posted payload, e.data. -/
  data : P
  /-- Stand-in for the remaining fields of the event object. -/
  origin : String
deriving DecidableEq

/-- State of the second worker.js variant (rebinds the handler). -/
structure WorkerBState (P : Type) where
  /-- Whether self.onmessage has been rebound to wasm.handle_message. -/
  handlerDirect : Bool
  /-- Number of WASM instantiations performed. -/
  initCount : ℕ
  /-- Arguments handle_message has received, in order: inl d when the
  wrapper passed e.data, inr e when the rebound handler passed the raw
  event. -/
  hmCalls : List (P ⊕ MsgEvent P)
  /-- Messages posted back to the parent context, in order. -/
  outbox : List String
deriving DecidableEq

/-- Worker state before any message arrives. -/
def workerB_init {P : Type} : WorkerBState P := ⟨false, 0, [], []⟩

/-- One message delivered to the second worker.js variant. While the
wrapper is installed: await init, await handle_message(e.data) discarding
the result, rebind self.onmessage to wasm.handle_message, post nothing.
Once rebound: handle_message receives the raw event; its return value is
discarded by the event dispatch and nothing is posted. -/
def workerB_onmessage {P : Type} (s : WorkerBState P) (e : MsgEvent P) :
    WorkerBState P :=
  if s.handlerDirect then
    { s with hmCalls := s.hmCalls ++ [Sum.inr e] }
  else
    { s with handlerDirect := true, initCount := s.initCount + 1,
             hmCalls := s.hmCalls ++ [Sum.inl e.data] }

/-- Deliver a sequence of message events to the second worker.js
variant. -/
def workerB_run {P : Type} (es : List (MsgEvent P)) (s : WorkerBState P) :
    WorkerBState P :=
  es.foldl workerB_onmessage s

/-! ### Theorems about the Worker Bridge variants -/

/-- Closed form of the embedded variant: every message triggers one
instantiation, one handle_message call on its payload, and one posted
result, in arrival order. -/
theorem workerE_run_spec {P R : Type} (hm : P → R) (msgs : List P)
    (s : WorkerEState P R) :
    workerE_run hm msgs s
      = ⟨s.initCount + msgs.length, s.hmCalls ++ msgs,
         s.outbox ++ msgs.map hm⟩ := by
  induction msgs generalizing s with
  | nil => simp [workerE_run]
  | cons m ms ih =>
    have h1 : workerE_run hm (m :: ms) s
        = workerE_run hm ms (workerE_onmessage hm s m) := rfl
    rw [h1, ih]
    simp [workerE_onmessage]
    omega

/-- C7 counterexample: in the worker variant embedded in index.js, two
inbound messages cause two WASM instantiations, not one, so the module is
not instantiated lazily on the first message only. -/
theorem embedded_worker_not_init_once :
    (workerE_run (fun n : ℕ => n) [0, 1]
        (workerE_init : WorkerEState ℕ ℕ)).initCount ≠ 1 := by decide

/-- C7 amended: in the worker variant embedded in index.js, the WASM
module is instantiated once per inbound message (not only on the first),
and for each inbound payload the worker calls handle_message on exactly
that payload and posts back exactly one outbound message equal to its
result, in the same order as the inbound messages. -/
theorem embedded_worker_relays_each_message {P R : Type} (hm : P → R)
    (msgs : List P) :
    (workerE_run hm msgs (workerE_init : WorkerEState P R)).outbox
      = msgs.map hm ∧
    (workerE_run hm msgs (workerE_init : WorkerEState P R)).hmCalls = msgs ∧
    (workerE_run hm msgs (workerE_init : WorkerEState P R)).initCount
      = msgs.length := by
  rw [workerE_run_spec]
  simp [workerE_init]

/-- The first worker.js variant posts one "All done" literal per message
and never rebinds the handler. -/
theorem workerA_run_spec {P : Type} (msgs : List P) (s : WorkerAState P) :
    workerA_run msgs s
      = ⟨s.handlerDirect, s.initCount + msgs.length, s.hmCalls ++ msgs,
         s.outbox ++ List.replicate msgs.length "All done"⟩ := by
  induction msgs generalizing s with
  | nil => simp [workerA_run]
  | cons m ms ih =>
    have h1 : workerA_run (m :: ms) s
        = workerA_run ms (workerA_onmessage s m) := rfl
    rw [h1, ih]
    simp [workerA_onmessage, List.replicate_succ]
    omega

/-- The second worker.js variant never posts anything. -/
theorem workerB_run_outbox {P : Type} (es : List (MsgEvent P))
    (s : WorkerBState P) : (workerB_run es s).outbox = s.outbox := by
  induction es generalizing s with
  | nil => rfl
  | cons e es ih =>
    have h1 : workerB_run (e :: es) s = workerB_run es (workerB_onmessage s e) :=
      rfl
    rw [h1, ih]
    unfold workerB_onmessage
    rcases hd : s.handlerDirect <;> simp [hd]

/-- After any delivered message the second worker.js variant has the
handler rebound to wasm.handle_message. -/
theorem workerB_onmessage_direct {P : Type} (s : WorkerBState P)
    (e : MsgEvent P) : (workerB_onmessage s e).handlerDirect = true := by
  unfold workerB_onmessage
  rcases hd : s.handlerDirect <;> simp [hd]

/-- The rebound handler stays rebound across further messages. -/
theorem workerB_run_direct {P : Type} (es : List (MsgEvent P))
    (s : WorkerBState P) (h : s.handlerDirect = true) :
    (workerB_run es s).handlerDirect = true := by
  induction es generalizing s with
  | nil => exact h
  | cons e es ih =>
    have h1 : workerB_run (e :: es) s = workerB_run es (workerB_onmessage s e) :=
      rfl
    rw [h1]
    exact ih (workerB_onmessage s e) (workerB_onmessage_direct s e)

/-- C8 counterexample: no single observed variant both answers with the
fixed literal and rebinds the handler. Concretely, after one message the
literal-posting variant (first worker.js implementation) still has the
wrapper installed, the rebinding variant (second worker.js
implementation) has posted nothing, and the variant embedded in index.js
posts the computed result of handle_message rather than a fixed
literal. -/
theorem no_variant_posts_literal_and_rebinds :
    (workerA_onmessage (workerA_init : WorkerAState ℕ) 7).outbox
      = ["All done"] ∧
    (workerA_onmessage (workerA_init : WorkerAState ℕ) 7).handlerDirect
      = false ∧
    (workerB_onmessage (workerB_init : WorkerBState ℕ)
        ⟨7, "parent"⟩).handlerDirect = true ∧
    (workerB_onmessage (workerB_init : WorkerBState ℕ)
        ⟨7, "parent"⟩).outbox = [] ∧
    (workerE_onmessage (fun n : ℕ => n + 1)
        (workerE_init : WorkerEState ℕ ℕ) 7).outbox = [8] :=
  ⟨rfl, rfl, rfl, rfl, rfl⟩

/-- C8 amended: the fixed-literal reply and the handler rebinding occur
in two distinct observed variants. The first worker.js variant replies to
every message with the literal "All done" and never rebinds the handler;
the second worker.js variant posts no reply at all and after its first
message has rebound self.onmessage to the exported handle_message,
bypassing the wrapper. -/
theorem literal_reply_and_rebind_are_distinct_variants :
    (∀ (P : Type) (msgs : List P),
        (workerA_run msgs (workerA_init : WorkerAState P)).outbox
          = List.replicate msgs.length "All done" ∧
        (workerA_run msgs (workerA_init : WorkerAState P)).handlerDirect
          = false) ∧
    (∀ (P : Type) (e : MsgEvent P) (es : List (MsgEvent P)),
        (workerB_run (e :: es) (workerB_init : WorkerBState P)).outbox = [] ∧
        (workerB_run (e :: es) (workerB_init : WorkerBState P)).handlerDirect
          = true) := by
  constructor
  · intro P msgs
    rw [workerA_run_spec]
    simp [workerA_init]
  · intro P e es
    constructor
    · rw [workerB_run_outbox]
      rfl
    · have h1 : workerB_run (e :: es) (workerB_init : WorkerBState P)
          = workerB_run es (workerB_onmessage workerB_init e) := rfl
      rw [h1]
      exact workerB_run_direct es _ (workerB_onmessage_direct _ e)

/-- C10: in the second worker.js variant, the first inbound message
produces no outbound message at all: the wrapper calls handle_message on
the payload and rebinds self.onmessage after one instantiation, but never
calls postMessage. -/
theorem rebind_variant_first_message_no_reply {P : Type} (e : MsgEvent P) :
    (workerB_onmessage (workerB_init : WorkerBState P) e).outbox = [] ∧
    (workerB_onmessage (workerB_init : WorkerBState P) e).hmCalls
      = [Sum.inl e.data] ∧
    (workerB_onmessage (workerB_init : WorkerBState P) e).handlerDirect
      = true ∧
    (workerB_onmessage (workerB_init : WorkerBState P) e).initCount = 1 :=
  ⟨rfl, rfl, rfl, rfl⟩

end Brand
